import Mathlib

/-!
Verification of the Daily-Log State & Synchronization Engine of the
HealthLogApp repository (src/src/context/AppContext.tsx and
src/src/context/AuthContext.tsx), as a shallow embedding in Lean.

JavaScript numbers are modelled as rationals (`ℚ`): the properties at stake
are about which values flow where (accumulator sums, averaging denominators,
field copies), not about binary floating-point rounding.  The wall clock and
the runtime's local calendar are passed explicitly: an instant is represented
by the local calendar components that `Date.getFullYear`/`getMonth`/`getDate`
would report for it, plus an opaque time-of-day component, and ISO timestamps
produced by `new Date().toISOString()` are passed in as opaque strings.
Remote I/O (Supabase) is modelled by explicit request/response values: each
operation returns the list of remote calls it issues, and read paths take the
store's response as an argument.
-/

/-- The local-calendar view of an instant, as the JS `Date` accessors expose
it: `year` = `getFullYear()`, `monthIndex` = `getMonth()` (0-based),
`day` = `getDate()` (1-based), and the time of day within that local calendar
day (milliseconds), which the day-key computation never reads. -/
structure LocalInstant where
  year : ℕ
  monthIndex : ℕ
  day : ℕ
  msOfDay : ℕ
deriving DecidableEq, Repr

/-- `s.padStart(len, c)` of JavaScript for a one-character pad string:
prepend copies of `c` until the length is at least `len`. -/
def padStart (s : String) (len : ℕ) (c : Char) : String :=
  ⟨List.replicate (len - s.data.length) c ++ s.data⟩

/-- `String(n).padStart(2, '0')`, the zero-padded two-digit rendering used by
`getLocalDateString` for the month and day components. -/
def pad2 (n : ℕ) : String :=
  padStart (Nat.repr n) 2 '0'

/-- `getLocalDateString` (AppContext.tsx): renders an instant's local calendar
components as `YYYY-MM-DD` — `${year}-${month}-${day}` with the month and day
zero-padded to two digits and the month converted from 0-based to 1-based. -/
def getLocalDateString (d : LocalInstant) : String :=
  Nat.repr d.year ++ "-" ++ pad2 (d.monthIndex + 1) ++ "-" ++ pad2 d.day

/-- `getTodayString()` (AppContext.tsx): the day key of the current instant,
with the clock passed explicitly. -/
def getTodayString (now : LocalInstant) : String :=
  getLocalDateString now

/-- `isLogStale` (AppContext.tsx): a log's date is stale when it differs from
today's day key. -/
def isLogStale (logDate : String) (now : LocalInstant) : Bool :=
  logDate != getTodayString now

/-- The `Rating` type of AppContext.tsx: `1 | 2 | 3 | 4 | 5`. -/
def Rating : Type := { n : ℕ // 1 ≤ n ∧ n ≤ 5 }

instance : DecidableEq Rating := fun a b =>
  decidable_of_iff (a.val = b.val) Subtype.val_inj

/-- The `DailyLog` interface of AppContext.tsx — the cached record for
"today".  Note it carries a `totalCalories` field alongside the three macro
accumulators. -/
structure DailyLog where
  date : String
  proteinGrams : ℚ
  carbsGrams : ℚ
  fatGrams : ℚ
  totalCalories : ℚ
  sleepHours : Option ℚ
  weightLbs : Option ℚ
  isPeriodDay : Bool
  steps : ℚ
  energyRating : Option Rating
  hungerRating : Option Rating
  motivationRating : Option Rating
  createdAt : String
  updatedAt : String
deriving DecidableEq

/-- `calculateCalories` (AppContext.tsx): `protein*4 + carbs*4 + fat*9`. -/
def calculateCalories (protein carbs fat : ℚ) : ℚ :=
  protein * 4 + carbs * 4 + fat * 9

/-- `createEmptyDailyLog` (AppContext.tsx): the client-side default record for
a day.  `now` is the ISO timestamp `new Date().toISOString()` produced at
creation time.  Note `isPeriodDay` is the boolean `false` — the AppContext
record type has no third state. -/
def createEmptyDailyLog (date : LocalInstant) (now : String) : DailyLog :=
  { date := getLocalDateString date
    proteinGrams := 0
    carbsGrams := 0
    fatGrams := 0
    totalCalories := 0
    sleepHours := none
    weightLbs := none
    isPeriodDay := false
    steps := 0
    energyRating := none
    hungerRating := none
    motivationRating := none
    createdAt := now
    updatedAt := now }

namespace AuthContext

/-- The older `DailyLog` interface of AuthContext.tsx: `isPeriodDay` is
`boolean | null` (tri-state) and no calorie total is stored ("calories are
CALCULATED from macros, not stored"). -/
structure DailyLog where
  date : String
  proteinGrams : ℚ
  carbsGrams : ℚ
  fatGrams : ℚ
  sleepHours : Option ℚ
  weightLbs : Option ℚ
  isPeriodDay : Option Bool
  steps : ℚ
  energyRating : Option Rating
  hungerRating : Option Rating
  motivationRating : Option Rating
  createdAt : String
  updatedAt : String
deriving DecidableEq

/-- `createEmptyDailyLog` (AuthContext.tsx): the tri-state variant — its
`isPeriodDay` starts as `null`.  This helper is not what the AppContext cache
uses. -/
def createEmptyDailyLog (date : LocalInstant) (now : String) : DailyLog :=
  { date := getLocalDateString date
    proteinGrams := 0
    carbsGrams := 0
    fatGrams := 0
    sleepHours := none
    weightLbs := none
    isPeriodDay := none
    steps := 0
    energyRating := none
    hungerRating := none
    motivationRating := none
    createdAt := now
    updatedAt := now }

end AuthContext

/-- The `UserGoals` interface of AppContext.tsx. -/
structure UserGoals where
  caloriesGoal : ℚ
  proteinGoal : ℚ
  carbsGoal : ℚ
  fatGoal : ℚ
  stepsGoal : ℚ
  sleepGoal : ℚ
deriving DecidableEq

/-- `DEFAULT_GOALS` (AppContext.tsx). -/
def DEFAULT_GOALS : UserGoals :=
  { caloriesGoal := 2000
    proteinGoal := 120
    carbsGoal := 250
    fatGoal := 65
    stepsGoal := 10000
    sleepGoal := 8 }

/-- The `UserProfile` interface of AppContext.tsx. -/
structure UserProfile where
  age : Option ℚ
  heightFeet : Option ℚ
  heightInches : Option ℚ
deriving DecidableEq

/-- The `CycleSettings` interface of AppContext.tsx. -/
structure CycleSettings where
  cycleLength : ℚ
  averagePeriodDays : ℚ
  lastPeriodStartDate : Option String
deriving DecidableEq

/-- A row of the `daily_logs` table as read back by `loadData`
(the `DbDailyLog` interface of AppContext.tsx, snake_case columns). -/
structure DbDailyLog where
  log_date : String
  protein_grams : ℚ
  carbs_grams : ℚ
  fat_grams : ℚ
  total_calories : ℚ
  sleep_hours : Option ℚ
  weight_lbs : Option ℚ
  is_period_day : Bool
  steps : ℚ
  energy_rating : Option Rating
  hunger_rating : Option Rating
  motivation_rating : Option Rating
  created_at : String
  updated_at : String
deriving DecidableEq

/-- `dbToApp` (AppContext.tsx): converts a stored row to the app record.
Every field — the calorie total included — is copied verbatim from the row. -/
def dbToApp (row : DbDailyLog) : DailyLog :=
  { date := row.log_date
    proteinGrams := row.protein_grams
    carbsGrams := row.carbs_grams
    fatGrams := row.fat_grams
    totalCalories := row.total_calories
    sleepHours := row.sleep_hours
    weightLbs := row.weight_lbs
    isPeriodDay := row.is_period_day
    steps := row.steps
    energyRating := row.energy_rating
    hungerRating := row.hunger_rating
    motivationRating := row.motivation_rating
    createdAt := row.created_at
    updatedAt := row.updated_at }

/-- A row of the `user_goals` table (the `DbUserGoals` interface). -/
structure DbUserGoals where
  calories_goal : ℚ
  protein_goal : ℚ
  carbs_goal : ℚ
  fat_goal : ℚ
  steps_goal : ℚ
  sleep_goal : ℚ
deriving DecidableEq

/-- `dbGoalsToApp` (AppContext.tsx). -/
def dbGoalsToApp (row : DbUserGoals) : UserGoals :=
  { caloriesGoal := row.calories_goal
    proteinGoal := row.protein_goal
    carbsGoal := row.carbs_goal
    fatGoal := row.fat_goal
    stepsGoal := row.steps_goal
    sleepGoal := row.sleep_goal }

/-- The columns `loadData` selects from the `profiles` table. -/
structure DbProfileRow where
  age : Option ℚ
  height_feet : Option ℚ
  height_inches : Option ℚ
  cycle_length_days : Option ℚ
  period_length_days : Option ℚ
  last_period_start : Option String
deriving DecidableEq

/-- JavaScript `x || d` for a possibly-null number: both `null` and `0` are
falsy, so either yields the default. -/
def jsOr (x : Option ℚ) (d : ℚ) : ℚ :=
  match x with
  | none => d
  | some v => if v = 0 then d else v

/-- The payload of the `daily_logs` upsert issued by `saveToSupabase`
(AppContext.tsx).  `now` is the ISO timestamp taken at write time.  The
`total_calories` column is recomputed from the log's macro accumulators via
`calculateCalories`; the cached `totalCalories` field is not consulted. -/
structure DbUpsertRow where
  user_id : String
  log_date : String
  protein_grams : ℚ
  carbs_grams : ℚ
  fat_grams : ℚ
  total_calories : ℚ
  sleep_hours : Option ℚ
  weight_lbs : Option ℚ
  is_period_day : Bool
  steps : ℚ
  energy_rating : Option Rating
  hunger_rating : Option Rating
  motivation_rating : Option Rating
  updated_at : String
deriving DecidableEq

/-- The row `saveToSupabase` builds for its upsert. -/
def upsertPayload (userId : String) (now : String) (log : DailyLog) : DbUpsertRow :=
  { user_id := userId
    log_date := log.date
    protein_grams := log.proteinGrams
    carbs_grams := log.carbsGrams
    fat_grams := log.fatGrams
    total_calories := calculateCalories log.proteinGrams log.carbsGrams log.fatGrams
    sleep_hours := log.sleepHours
    weight_lbs := log.weightLbs
    is_period_day := log.isPeriodDay
    steps := log.steps
    energy_rating := log.energyRating
    hunger_rating := log.hungerRating
    motivation_rating := log.motivationRating
    updated_at := now }

/-- A remote request issued by the engine, for tracking which operations
perform I/O. -/
inductive RemoteCall
  | selectDailyLog (userId : String) (logDate : String)
  | selectGoals (userId : String)
  | selectProfile (userId : String)
  | upsertDailyLog (row : DbUpsertRow)
  | updateGoalsRow (userId : String)
  | updateProfilesRow (userId : String)
deriving DecidableEq

/-- `saveToSupabase` (AppContext.tsx), as the list of remote calls it issues:
nothing while signed out (`if (!user) return`), otherwise one upsert whose
payload recomputes the calorie total. -/
def saveToSupabase (user : Option String) (now : String) (log : DailyLog) :
    List RemoteCall :=
  match user with
  | none => []
  | some u => [RemoteCall.upsertDailyLog (upsertPayload u now log)]

/-- The three macro accumulators selectable by `addMacro`. -/
inductive MacroType
  | protein
  | carbs
  | fat
deriving DecidableEq

/-- The cache update performed by `addMacro` (AppContext.tsx): add the delta
to the selected accumulator, stamp `updatedAt`, then recompute
`totalCalories` from the new accumulators.  No clamping is applied. -/
def addMacro (t : MacroType) (grams : ℚ) (now : String) (prev : DailyLog) :
    DailyLog :=
  let l :=
    match t with
    | MacroType.protein => { prev with proteinGrams := prev.proteinGrams + grams, updatedAt := now }
    | MacroType.carbs => { prev with carbsGrams := prev.carbsGrams + grams, updatedAt := now }
    | MacroType.fat => { prev with fatGrams := prev.fatGrams + grams, updatedAt := now }
  { l with totalCalories := calculateCalories l.proteinGrams l.carbsGrams l.fatGrams }

/-- The cache update performed by `setSleep` (AppContext.tsx). -/
def setSleep (hours : ℚ) (now : String) (prev : DailyLog) : DailyLog :=
  { prev with sleepHours := some hours, updatedAt := now }

/-- The cache update performed by `setWeight` (AppContext.tsx). -/
def setWeight (lbs : ℚ) (now : String) (prev : DailyLog) : DailyLog :=
  { prev with weightLbs := some lbs, updatedAt := now }

/-- The cache update performed by `setPeriodDay` (AppContext.tsx). -/
def setPeriodDay (isPeriod : Bool) (now : String) (prev : DailyLog) : DailyLog :=
  { prev with isPeriodDay := isPeriod, updatedAt := now }

/-- The rating slots selectable by `setRating`. -/
inductive RatingType
  | energy
  | hunger
  | motivation
deriving DecidableEq

/-- The cache update performed by `setRating` (AppContext.tsx). -/
def setRating (t : RatingType) (value : Option Rating) (now : String)
    (prev : DailyLog) : DailyLog :=
  match t with
  | RatingType.energy => { prev with energyRating := value, updatedAt := now }
  | RatingType.hunger => { prev with hungerRating := value, updatedAt := now }
  | RatingType.motivation => { prev with motivationRating := value, updatedAt := now }

/-- The cache update performed by `setSteps` (AppContext.tsx). -/
def setSteps (steps : ℚ) (now : String) (prev : DailyLog) : DailyLog :=
  { prev with steps := steps, updatedAt := now }

/-- `addMacro` as the full operation: the new cache value plus the remote
calls issued (the unawaited `saveToSupabase(newLog)`). -/
def addMacroOp (user : Option String) (t : MacroType) (grams : ℚ)
    (now : String) (prev : DailyLog) : DailyLog × List RemoteCall :=
  let newLog := addMacro t grams now prev
  (newLog, saveToSupabase user now newLog)

/-- `setSleep` as the full operation. -/
def setSleepOp (user : Option String) (hours : ℚ) (now : String)
    (prev : DailyLog) : DailyLog × List RemoteCall :=
  let newLog := setSleep hours now prev
  (newLog, saveToSupabase user now newLog)

/-- `setWeight` as the full operation. -/
def setWeightOp (user : Option String) (lbs : ℚ) (now : String)
    (prev : DailyLog) : DailyLog × List RemoteCall :=
  let newLog := setWeight lbs now prev
  (newLog, saveToSupabase user now newLog)

/-- `setPeriodDay` as the full operation. -/
def setPeriodDayOp (user : Option String) (isPeriod : Bool) (now : String)
    (prev : DailyLog) : DailyLog × List RemoteCall :=
  let newLog := setPeriodDay isPeriod now prev
  (newLog, saveToSupabase user now newLog)

/-- `setRating` as the full operation. -/
def setRatingOp (user : Option String) (t : RatingType) (value : Option Rating)
    (now : String) (prev : DailyLog) : DailyLog × List RemoteCall :=
  let newLog := setRating t value now prev
  (newLog, saveToSupabase user now newLog)

/-- `setSteps` as the full operation. -/
def setStepsOp (user : Option String) (steps : ℚ) (now : String)
    (prev : DailyLog) : DailyLog × List RemoteCall :=
  let newLog := setSteps steps now prev
  (newLog, saveToSupabase user now newLog)

/-- The state the AppContext provider holds (besides loading/cycle mocks). -/
structure AppState where
  todayLog : DailyLog
  goals : UserGoals
  profile : UserProfile
  cycleSettings : CycleSettings
deriving DecidableEq

/-- The store's responses to the three reads `loadData` performs. -/
structure LoadResponses where
  logRow : Option DbDailyLog
  goalsRow : Option DbUserGoals
  profileRow : Option DbProfileRow
deriving DecidableEq

/-- `loadData` (AppContext.tsx).  Signed out: fabricate an empty record for
today and the default goals locally, touch nothing else, issue no remote
call.  Signed in: read today's log (falling back to a fresh empty record),
the goals row (falling back to the previous goals — the code has no `else`
branch there), and the profile row (which also feeds the cycle settings,
with `|| 28` / `|| 5` fallbacks on falsy column values). -/
def loadData (user : Option String) (resp : LoadResponses)
    (nowLocal : LocalInstant) (nowIso : String) (prev : AppState) :
    AppState × List RemoteCall :=
  match user with
  | none =>
      ({ prev with todayLog := createEmptyDailyLog nowLocal nowIso,
                   goals := DEFAULT_GOALS }, [])
  | some u =>
      let todayLog :=
        match resp.logRow with
        | some row => dbToApp row
        | none => createEmptyDailyLog nowLocal nowIso
      let goals :=
        match resp.goalsRow with
        | some row => dbGoalsToApp row
        | none => prev.goals
      let profile :=
        match resp.profileRow with
        | some p => { age := p.age, heightFeet := p.height_feet,
                      heightInches := p.height_inches : UserProfile }
        | none => prev.profile
      let cycleSettings :=
        match resp.profileRow with
        | some p => { cycleLength := jsOr p.cycle_length_days 28,
                      averagePeriodDays := jsOr p.period_length_days 5,
                      lastPeriodStartDate := p.last_period_start : CycleSettings }
        | none => prev.cycleSettings
      ({ todayLog := todayLog, goals := goals, profile := profile,
         cycleSettings := cycleSettings },
       [RemoteCall.selectDailyLog u (getTodayString nowLocal),
        RemoteCall.selectGoals u,
        RemoteCall.selectProfile u])

/-- The rollover staleness check (`checkForDayChange` in the day-change
effect of AppContext.tsx): `true` means a reload is triggered.  The effect
body starts with `if (!user) return;`, so no check ever runs while signed
out. -/
def checkForDayChange (user : Option String) (todayLogDate : String)
    (now : LocalInstant) : Bool :=
  match user with
  | none => false
  | some _ => isLogStale todayLogDate now

/-- Outcome of an awaited remote write (`{ error }` of a Supabase update). -/
inductive WriteOutcome
  | ok
  | fail (e : String)
deriving DecidableEq

/-- The goal fields addressable by `updateGoal` (`keyof UserGoals`). -/
inductive GoalField
  | caloriesGoal
  | proteinGoal
  | carbsGoal
  | fatGoal
  | stepsGoal
  | sleepGoal
deriving DecidableEq

/-- `{ ...prev, [type]: value }` for a goal field. -/
def setGoalField (g : UserGoals) (f : GoalField) (value : ℚ) : UserGoals :=
  match f with
  | GoalField.caloriesGoal => { g with caloriesGoal := value }
  | GoalField.proteinGoal => { g with proteinGoal := value }
  | GoalField.carbsGoal => { g with carbsGoal := value }
  | GoalField.fatGoal => { g with fatGoal := value }
  | GoalField.stepsGoal => { g with stepsGoal := value }
  | GoalField.sleepGoal => { g with sleepGoal := value }

/-- `updateGoal` (AppContext.tsx): awaits the remote update; on success the
cached goals gain the new field value, on failure the error is re-thrown
(`throw error`) and the cache is untouched.  The result is the new cached
goals paired with the propagated error, if any. -/
def updateGoal (user : Option String) (t : GoalField) (value : ℚ)
    (outcome : WriteOutcome) (goals : UserGoals) : UserGoals × Option String :=
  match user with
  | none => (goals, none)
  | some _ =>
      match outcome with
      | WriteOutcome.ok => (setGoalField goals t value, none)
      | WriteOutcome.fail e => (goals, some e)

/-- The `(field, value)` combinations `updateProfile` accepts: an age, or a
feet/inches pair (the code's `heightFeet` and `heightInches` branches both
store the pair). -/
inductive ProfileUpdate
  | age (v : ℚ)
  | heightFeet (feet inches : ℚ)
  | heightInches (feet inches : ℚ)
deriving DecidableEq

/-- `updateProfile` (AppContext.tsx): awaited write, cache updated only on
success, error propagated on failure with the cache untouched. -/
def updateProfile (user : Option String) (upd : ProfileUpdate)
    (outcome : WriteOutcome) (profile : UserProfile) :
    UserProfile × Option String :=
  match user with
  | none => (profile, none)
  | some _ =>
      match outcome with
      | WriteOutcome.fail e => (profile, some e)
      | WriteOutcome.ok =>
          match upd with
          | ProfileUpdate.age v => ({ profile with age := some v }, none)
          | ProfileUpdate.heightFeet f i =>
              ({ profile with heightFeet := some f, heightInches := some i }, none)
          | ProfileUpdate.heightInches f i =>
              ({ profile with heightFeet := some f, heightInches := some i }, none)

/-- The `(field, value)` combinations `updateCycleSettings` accepts. -/
inductive CycleSettingsUpdate
  | cycleLength (v : ℚ)
  | averagePeriodDays (v : ℚ)
  | lastPeriodStartDate (s : String)
deriving DecidableEq

/-- `updateCycleSettings` (AppContext.tsx): awaited write, cache updated only
on success, error propagated on failure with the cache untouched. -/
def updateCycleSettings (user : Option String) (upd : CycleSettingsUpdate)
    (outcome : WriteOutcome) (cs : CycleSettings) :
    CycleSettings × Option String :=
  match user with
  | none => (cs, none)
  | some _ =>
      match outcome with
      | WriteOutcome.fail e => (cs, some e)
      | WriteOutcome.ok =>
          match upd with
          | CycleSettingsUpdate.cycleLength v => ({ cs with cycleLength := v }, none)
          | CycleSettingsUpdate.averagePeriodDays v =>
              ({ cs with averagePeriodDays := v }, none)
          | CycleSettingsUpdate.lastPeriodStartDate s =>
              ({ cs with lastPeriodStartDate := some s }, none)

/-- A `daily_logs` row as seen by the weight-history query: the selected
columns plus the owning user. -/
structure DbWeightRow where
  user_id : String
  log_date : String
  weight_lbs : Option ℚ
deriving DecidableEq

/-- The store's ordering of `log_date` keys: lexicographic on the characters
of the `YYYY-MM-DD` string, which for zero-padded keys coincides with
chronological order. -/
def dayKeyLe (a b : String) : Prop :=
  a.data ≤ b.data

instance : DecidableRel dayKeyLe := fun a b =>
  inferInstanceAs (Decidable (a.data ≤ b.data))

/-- The row-level condition of the weight-history query
(`eq user_id`, `gte log_date start`, `not weight_lbs is null`).  There is no
upper bound on `log_date`. -/
def weightRowMatches (u : String) (startDateString : String)
    (r : DbWeightRow) : Bool :=
  r.user_id == u && decide (dayKeyLe startDateString r.log_date) &&
    r.weight_lbs.isSome

instance : IsTotal DbWeightRow (fun a b => dayKeyLe a.log_date b.log_date) :=
  ⟨fun a b => le_total a.log_date.data b.log_date.data⟩

instance : IsTrans DbWeightRow (fun a b => dayKeyLe a.log_date b.log_date) :=
  ⟨fun _ _ _ h1 h2 => le_trans h1 h2⟩

/-- `getWeightHistory` (AppContext.tsx) over an explicit store content.
`startDateString` is the day key the code derives for `today - window`; the
query the code issues filters on `log_date >= startDateString` only, keeps
non-null weights, and asks for ascending `log_date` order (modelled by a
sort of the matching rows).  On a query error it returns `[]`; signed out it
returns `[]`.  Each returned point pairs the row's day key with its weight
(the cosmetic reformatting of the key to `MM/DD` for chart labels is
display-only and not modelled). -/
def getWeightHistory (user : Option String) (queryError : Bool)
    (db : List DbWeightRow) (startDateString : String) : List (String × ℚ) :=
  match user with
  | none => []
  | some u =>
      if queryError then []
      else
        ((db.filter (weightRowMatches u startDateString)).insertionSort
            (fun a b => dayKeyLe a.log_date b.log_date)).map
          (fun r => (r.log_date, r.weight_lbs.getD 0))

/-- The weight-history query as the claim states it: the same read but over
the two-sided range `[today - window, today]`, i.e. with an upper bound
`log_date ≤ todayString` that the code does not issue. -/
def getWeightHistoryClaimed (user : Option String) (queryError : Bool)
    (db : List DbWeightRow) (startDateString todayString : String) :
    List (String × ℚ) :=
  match user with
  | none => []
  | some u =>
      if queryError then []
      else
        ((db.filter (fun r => weightRowMatches u startDateString r &&
            decide (dayKeyLe r.log_date todayString))).insertionSort
            (fun a b => dayKeyLe a.log_date b.log_date)).map
          (fun r => (r.log_date, r.weight_lbs.getD 0))

/-- A `daily_logs` row as seen by the seven-day-averages query: the four
selected columns, each treated by the code as possibly null. -/
structure DbAvgRow where
  total_calories : Option ℚ
  protein_grams : Option ℚ
  steps : Option ℚ
  sleep_hours : Option ℚ
deriving DecidableEq

/-- The `validData` filter of `getSevenDayAverages`: a row survives when at
least one of the four columns is non-null. -/
def avgRowValid (r : DbAvgRow) : Bool :=
  r.total_calories.isSome || r.protein_grams.isSome || r.steps.isSome ||
    r.sleep_hours.isSome

/-- The result record of `getSevenDayAverages` (`SevenDayAverages`). -/
structure SevenDayAverages where
  calories : Option ℚ
  protein : Option ℚ
  steps : Option ℚ
  sleep : Option ℚ
deriving DecidableEq

/-- The `reduce` accumulating the four sums over `validData`, with `x || 0`
modelled as `Option.getD 0` (null contributes zero; a stored `0` is also
falsy in JS but `|| 0` maps it to the same number). -/
def avgSums (rows : List DbAvgRow) : ℚ × ℚ × ℚ × ℚ :=
  rows.foldl
    (fun acc r =>
      (acc.1 + r.total_calories.getD 0,
       acc.2.1 + r.protein_grams.getD 0,
       acc.2.2.1 + r.steps.getD 0,
       acc.2.2.2 + r.sleep_hours.getD 0))
    (0, 0, 0, 0)

/-- `getSevenDayAverages` (AppContext.tsx) over an explicit query result.
All-null when signed out, when the query errors, when it returns no rows, or
when every returned row has all four columns null.  Otherwise calories,
protein and steps are averaged over `validData.length` (rows with at least
one non-null column), and sleep over the rows where it is non-null. -/
def getSevenDayAverages (user : Option String) (queryError : Bool)
    (data : List DbAvgRow) : SevenDayAverages :=
  match user with
  | none => ⟨none, none, none, none⟩
  | some _ =>
      if queryError || data.length == 0 then ⟨none, none, none, none⟩
      else
        let validData := data.filter avgRowValid
        if validData.length == 0 then ⟨none, none, none, none⟩
        else
          let sums := avgSums validData
          let count : ℚ := validData.length
          let sleepCount := (validData.filter (fun r => r.sleep_hours.isSome)).length
          { calories := some (sums.1 / count)
            protein := some (sums.2.1 / count)
            steps := some (sums.2.2.1 / count)
            sleep := if sleepCount > 0 then some (sums.2.2.2 / (sleepCount : ℚ))
                     else none }

/-- The averaging rule as the claim states it: calories, protein and steps
averaged over the count of ALL rows of the window (missing values as zero),
sleep over the rows where it was logged, all-null only when the window holds
zero rows. -/
def sevenDayAveragesClaimed (data : List DbAvgRow) : SevenDayAverages :=
  if data.length = 0 then ⟨none, none, none, none⟩
  else
    let count : ℚ := data.length
    let sleepRows := data.filter (fun r => r.sleep_hours.isSome)
    { calories := some ((data.map (fun r => r.total_calories.getD 0)).sum / count)
      protein := some ((data.map (fun r => r.protein_grams.getD 0)).sum / count)
      steps := some ((data.map (fun r => r.steps.getD 0)).sum / count)
      sleep := if sleepRows.length = 0 then none
               else some ((sleepRows.map (fun r => r.sleep_hours.getD 0)).sum /
                 (sleepRows.length : ℚ)) }

/-- The averaging rule the code actually implements, written in the claim's
style: identical to `sevenDayAveragesClaimed` except that the denominators
count only the rows with at least one non-null column, and the result is
also all-null when every row is all-null. -/
def sevenDayAveragesAmended (data : List DbAvgRow) : SevenDayAverages :=
  let validData := data.filter avgRowValid
  if validData.length = 0 then ⟨none, none, none, none⟩
  else
    let count : ℚ := validData.length
    let sleepRows := validData.filter (fun r => r.sleep_hours.isSome)
    { calories := some ((validData.map (fun r => r.total_calories.getD 0)).sum / count)
      protein := some ((validData.map (fun r => r.protein_grams.getD 0)).sum / count)
      steps := some ((validData.map (fun r => r.steps.getD 0)).sum / count)
      sleep := if sleepRows.length = 0 then none
               else some ((sleepRows.map (fun r => r.sleep_hours.getD 0)).sum /
                 (sleepRows.length : ℚ)) }

/-- Gregorian leap-year rule, as the JS `Date` runtime's calendar applies
it.  The runtime calendar is the environment of `getLocalDateString`; it is
modelled here so that "instants either side of local midnight" can be
stated. -/
def isLeapYear (y : ℕ) : Bool :=
  (y % 4 == 0 && y % 100 != 0) || y % 400 == 0

/-- Days in a month of the runtime calendar (`monthIndex` 0-based). -/
def daysInMonth (y : ℕ) (monthIndex : ℕ) : ℕ :=
  match monthIndex with
  | 0 => 31
  | 1 => if isLeapYear y then 29 else 28
  | 2 => 31
  | 3 => 30
  | 4 => 31
  | 5 => 30
  | 6 => 31
  | 7 => 31
  | 8 => 30
  | 9 => 31
  | 10 => 30
  | _ => 31

/-- The first instant of the next local calendar day: what crossing local
midnight does to the `Date` components. -/
def nextCalendarDay (d : LocalInstant) : LocalInstant :=
  if d.day < daysInMonth d.year d.monthIndex then
    { d with day := d.day + 1, msOfDay := 0 }
  else if d.monthIndex < 11 then
    { d with monthIndex := d.monthIndex + 1, day := 1, msOfDay := 0 }
  else
    { year := d.year + 1, monthIndex := 0, day := 1, msOfDay := 0 }

/-- State of the optimistic-update loop for one signed-in session: the cached
record, the upsert payloads issued but not yet completed by the network, and
the remote row as of the last write to land. -/
structure SyncState where
  log : DailyLog
  pending : List DbUpsertRow
  remote : Option DbUpsertRow
deriving DecidableEq

/-- An event of the optimistic-update loop: a locally issued `addMacro`
(which updates the cache synchronously and fires an unawaited upsert), or
the network completing the `i`-th in-flight upsert (completions may happen
in any order). -/
inductive SyncEvent
  | mutate (t : MacroType) (grams : ℚ) (now : String)
  | complete (i : ℕ)
deriving DecidableEq

/-- One step of the loop.  A mutation applies `addMacro` to the cache and
appends `saveToSupabase`'s payload to the in-flight writes; a completion
only moves an in-flight payload to the remote row and never touches the
cache. -/
def syncStep (user : String) (s : SyncState) (e : SyncEvent) : SyncState :=
  match e with
  | SyncEvent.mutate t grams now =>
      let newLog := addMacro t grams now s.log
      { s with log := newLog,
               pending := s.pending ++ [upsertPayload user now newLog] }
  | SyncEvent.complete i =>
      match s.pending[i]? with
      | none => s
      | some row => { s with remote := some row, pending := s.pending.eraseIdx i }

/-- Run a whole event sequence. -/
def syncRun (user : String) (s : SyncState) (evs : List SyncEvent) : SyncState :=
  evs.foldl (syncStep user) s

/-- The accumulator `addMacro t` targets. -/
def macroValue (t : MacroType) (log : DailyLog) : ℚ :=
  match t with
  | MacroType.protein => log.proteinGrams
  | MacroType.carbs => log.carbsGrams
  | MacroType.fat => log.fatGrams

/-- The delta an event contributes to the accumulator of macro type `t`:
the grams of a mutation of that type, zero otherwise. -/
def eventDelta (t : MacroType) (e : SyncEvent) : ℚ :=
  match e with
  | SyncEvent.mutate t' grams _ => if t' = t then grams else 0
  | SyncEvent.complete _ => 0

/-- The sum of the deltas a sequence of events applies to macro type `t`. -/
def sumDeltas (t : MacroType) (evs : List SyncEvent) : ℚ :=
  (evs.map (eventDelta t)).sum

/-- The cache invariant relating the stored `totalCalories` field to the
macro accumulators. -/
def calorieInvariant (log : DailyLog) : Prop :=
  log.totalCalories = calculateCalories log.proteinGrams log.carbsGrams log.fatGrams

/-- A finite sequence of `addMacro` cache updates applied in order; each
element carries the macro type, the delta and the `updatedAt` stamp of one
call. -/
def runAddMacros (ops : List (MacroType × ℚ × String)) (log : DailyLog) :
    DailyLog :=
  ops.foldl (fun l o => addMacro o.1 o.2.1 o.2.2 l) log

set_option maxRecDepth 8000

/-- C1 (amended): the cache's empty record initializes the three macro
accumulators to 0, sleep and weight to absent, `isPeriodDay` to the boolean
`false` (the AppContext record is two-valued; no distinct unset state
exists), steps to 0 and the three ratings to absent; the tri-state `null`
initialization exists only in the unused AuthContext helper. -/
theorem C1_empty_record_initialization :
    ∀ (d : LocalInstant) (now : String),
      (createEmptyDailyLog d now).proteinGrams = 0 ∧
      (createEmptyDailyLog d now).carbsGrams = 0 ∧
      (createEmptyDailyLog d now).fatGrams = 0 ∧
      (createEmptyDailyLog d now).sleepHours = none ∧
      (createEmptyDailyLog d now).weightLbs = none ∧
      (createEmptyDailyLog d now).isPeriodDay = false ∧
      (createEmptyDailyLog d now).steps = 0 ∧
      (createEmptyDailyLog d now).energyRating = none ∧
      (createEmptyDailyLog d now).hungerRating = none ∧
      (createEmptyDailyLog d now).motivationRating = none ∧
      (AuthContext.createEmptyDailyLog d now).isPeriodDay = none :=
  fun _ _ => ⟨rfl, rfl, rfl, rfl, rfl, rfl, rfl, rfl, rfl, rfl, rfl⟩

/-- C1 counterexample: the record the cache actually initializes with has
`isPeriodDay = false`, so "`isPeriodDay` is the tri-state unset value,
distinct from `false`" fails at this concrete creation. -/
theorem C1_counterexample :
    ¬ ((createEmptyDailyLog ⟨2024, 5, 15, 0⟩ "2024-06-15T00:00:00.000Z").isPeriodDay ≠ false) :=
  fun h => h rfl

/-- C2 (amended): every persistence write recomputes the `total_calories`
column from the macro accumulators as `protein*4 + carbs*4 + fat*9`,
ignoring the cached `totalCalories` (so no independent calorie value is ever
written); but the column is stored, and a load copies the stored value back
verbatim rather than recomputing it. -/
theorem C2_calorie_column_recomputed_on_write :
    ∀ (u now : String) (log : DailyLog) (x : ℚ) (row : DbDailyLog),
      (upsertPayload u now log).total_calories =
        calculateCalories log.proteinGrams log.carbsGrams log.fatGrams ∧
      upsertPayload u now { log with totalCalories := x } = upsertPayload u now log ∧
      (dbToApp row).totalCalories = row.total_calories :=
  fun _ _ _ _ _ => ⟨rfl, rfl, rfl⟩

/-- C2 counterexample: calorie totals ARE stored — a stored row whose
`total_calories` column disagrees with the recomputation from its macro
columns is presented after a load with the stored value, not the
recomputation, so "every value presented as the calorie total is recomputed
from the macro accumulators" fails. -/
theorem C2_counterexample :
    (dbToApp
        { log_date := "2024-06-15", protein_grams := 0, carbs_grams := 0,
          fat_grams := 0, total_calories := 999, sleep_hours := none,
          weight_lbs := none, is_period_day := false, steps := 0,
          energy_rating := none, hunger_rating := none,
          motivation_rating := none, created_at := "t0",
          updated_at := "t0" }).totalCalories ≠
      calculateCalories 0 0 0 := by
  norm_num [dbToApp, calculateCalories]

/-- C6: goal, profile and cycle-settings updates are pessimistic — with a
signed-in user, a failed remote write leaves the cached value exactly
unchanged and propagates the error to the caller, and only a successful
write updates the cached value. -/
theorem C6_settings_updates_pessimistic :
    ∀ (u e : String),
      (∀ (t : GoalField) (v : ℚ) (g : UserGoals),
        updateGoal (some u) t v (WriteOutcome.fail e) g = (g, some e) ∧
        updateGoal (some u) t v WriteOutcome.ok g = (setGoalField g t v, none)) ∧
      (∀ (upd : ProfileUpdate) (p : UserProfile),
        updateProfile (some u) upd (WriteOutcome.fail e) p = (p, some e)) ∧
      (∀ (v : ℚ) (p : UserProfile),
        updateProfile (some u) (ProfileUpdate.age v) WriteOutcome.ok p =
          ({ p with age := some v }, none)) ∧
      (∀ (f i : ℚ) (p : UserProfile),
        updateProfile (some u) (ProfileUpdate.heightFeet f i) WriteOutcome.ok p =
          ({ p with heightFeet := some f, heightInches := some i }, none)) ∧
      (∀ (upd : CycleSettingsUpdate) (cs : CycleSettings),
        updateCycleSettings (some u) upd (WriteOutcome.fail e) cs = (cs, some e)) ∧
      (∀ (v : ℚ) (cs : CycleSettings),
        updateCycleSettings (some u) (CycleSettingsUpdate.cycleLength v)
          WriteOutcome.ok cs = ({ cs with cycleLength := v }, none)) ∧
      (∀ (v : ℚ) (cs : CycleSettings),
        updateCycleSettings (some u) (CycleSettingsUpdate.averagePeriodDays v)
          WriteOutcome.ok cs = ({ cs with averagePeriodDays := v }, none)) ∧
      (∀ (s : String) (cs : CycleSettings),
        updateCycleSettings (some u) (CycleSettingsUpdate.lastPeriodStartDate s)
          WriteOutcome.ok cs = ({ cs with lastPeriodStartDate := some s }, none)) :=
  fun _ _ =>
    ⟨fun _ _ _ => ⟨rfl, rfl⟩, fun _ _ => rfl, fun _ _ => rfl, fun _ _ _ => rfl,
     fun _ _ => rfl, fun _ _ => rfl, fun _ _ => rfl, fun _ _ => rfl⟩

/-- C9: while signed out, the load path fabricates the empty record and the
default goals locally and issues no remote call, every daily-log mutator
updates the cache exactly as its pure cache update prescribes while issuing
no remote call, and the rollover staleness check takes no action. -/
theorem C9_signed_out_no_remote_io :
    ∀ (resp : LoadResponses) (nowLocal : LocalInstant) (nowIso : String)
      (prev : AppState) (t : MacroType) (g : ℚ) (now : String)
      (log : DailyLog) (hrs lbs st : ℚ) (b : Bool) (rt : RatingType)
      (rv : Option Rating) (s : String),
      loadData none resp nowLocal nowIso prev =
        ({ prev with todayLog := createEmptyDailyLog nowLocal nowIso,
                     goals := DEFAULT_GOALS }, []) ∧
      addMacroOp none t g now log = (addMacro t g now log, []) ∧
      setSleepOp none hrs now log = (setSleep hrs now log, []) ∧
      setWeightOp none lbs now log = (setWeight lbs now log, []) ∧
      setPeriodDayOp none b now log = (setPeriodDay b now log, []) ∧
      setRatingOp none rt rv now log = (setRating rt rv now log, []) ∧
      setStepsOp none st now log = (setSteps st now log, []) ∧
      checkForDayChange none s nowLocal = false :=
  fun _ _ _ _ _ _ _ _ _ _ _ _ _ _ _ =>
    ⟨rfl, rfl, rfl, rfl, rfl, rfl, rfl, rfl⟩

/-- `addMacro` moves the targeted accumulator by exactly the delta and
leaves the other two accumulators unchanged. -/
theorem macroValue_addMacro (t t' : MacroType) (g : ℚ) (now : String)
    (log : DailyLog) :
    macroValue t (addMacro t' g now log) =
      macroValue t log + (if t' = t then g else 0) := by
  cases t <;> cases t' <;>
    simp [addMacro, macroValue]

/-- One step of the sync loop moves the accumulator by the event's delta:
completions never touch the cache. -/
theorem macroValue_syncStep (user : String) (t : MacroType) (s : SyncState)
    (e : SyncEvent) :
    macroValue t (syncStep user s e).log =
      macroValue t s.log + eventDelta t e := by
  cases e with
  | mutate t' g now =>
      simpa [syncStep, eventDelta] using macroValue_addMacro t t' g now s.log
  | complete i =>
      cases h : s.pending[i]? <;> simp [syncStep, h, eventDelta]

/-- C5: for every initial sync state and every event sequence — local
`addMacro` mutations interleaved arbitrarily with network completions of the
fire-and-forget upserts — each macro accumulator of the cache ends at its
initial value plus the sum of the deltas of the mutations targeting it.
Completion events (the persistence side) never affect the cached value. -/
theorem C5_cache_reflects_sum_of_deltas :
    ∀ (user : String) (t : MacroType) (s0 : SyncState) (evs : List SyncEvent),
      macroValue t (syncRun user s0 evs).log =
        macroValue t s0.log + sumDeltas t evs := by
  intro user t s0 evs
  induction evs generalizing s0 with
  | nil => simp [syncRun, sumDeltas]
  | cons e rest ih =>
      have hstep := macroValue_syncStep user t s0 e
      calc macroValue t (syncRun user s0 (e :: rest)).log
          = macroValue t (syncRun user (syncStep user s0 e) rest).log := by
            simp [syncRun]
        _ = macroValue t (syncStep user s0 e).log + sumDeltas t rest := ih _
        _ = macroValue t s0.log + sumDeltas t (e :: rest) := by
            rw [hstep]; simp [sumDeltas]; ring

/-- C10: every daily-log cache mutator preserves the invariant that the
record's stored `totalCalories` equals `calculateCalories` of its macro
accumulators, and the empty record satisfies it. -/
theorem C10_mutators_preserve_calorie_invariant :
    ∀ (log : DailyLog), calorieInvariant log →
      ∀ (t : MacroType) (g hrs lbs st : ℚ) (b : Bool) (rt : RatingType)
        (rv : Option Rating) (now : String) (d : LocalInstant) (iso : String),
        calorieInvariant (addMacro t g now log) ∧
        calorieInvariant (setSleep hrs now log) ∧
        calorieInvariant (setWeight lbs now log) ∧
        calorieInvariant (setPeriodDay b now log) ∧
        calorieInvariant (setRating rt rv now log) ∧
        calorieInvariant (setSteps st now log) ∧
        calorieInvariant (createEmptyDailyLog d iso) := by
  intro log h t g hrs lbs st b rt rv now d iso
  refine ⟨?_, ?_, ?_, ?_, ?_, ?_, ?_⟩
  · cases t <;> simp [calorieInvariant, addMacro]
  · simpa [calorieInvariant, setSleep] using h
  · simpa [calorieInvariant, setWeight] using h
  · simpa [calorieInvariant, setPeriodDay] using h
  · cases rt <;> simpa [calorieInvariant, setRating] using h
  · simpa [calorieInvariant, setSteps] using h
  · simp [calorieInvariant, createEmptyDailyLog, calculateCalories]

/-- C10 witness: the invariant holds for the empty record and is carried
through a concrete mutation of each kind. -/
theorem C10_witness :
    calorieInvariant
      (addMacro MacroType.protein 10 "t2" (createEmptyDailyLog ⟨2024, 5, 15, 0⟩ "t1")) ∧
    calorieInvariant (setSleep 8 "t2" (createEmptyDailyLog ⟨2024, 5, 15, 0⟩ "t1")) :=
  have h0 : calorieInvariant (createEmptyDailyLog ⟨2024, 5, 15, 0⟩ "t1") := by
    simp [calorieInvariant, createEmptyDailyLog, calculateCalories]
  ⟨(C10_mutators_preserve_calorie_invariant _ h0 MacroType.protein 10 8 150 1000
      true RatingType.energy none "t2" ⟨2024, 5, 15, 0⟩ "t1").1,
   (C10_mutators_preserve_calorie_invariant _ h0 MacroType.protein 10 8 150 1000
      true RatingType.energy none "t2" ⟨2024, 5, 15, 0⟩ "t1").2.1⟩

/-- C4 counterexample: `addMacro` applies no clamping, so a single negative
delta from the empty record drives the protein accumulator below zero —
"non-negative after every operation, for every sequence of addMacro calls"
fails. -/
theorem C4_counterexample :
    (addMacro MacroType.protein (-5) "t2"
        (createEmptyDailyLog ⟨2024, 5, 15, 0⟩ "t1")).proteinGrams < 0 := by
  norm_num [addMacro, createEmptyDailyLog]

/-- A sequence of `addMacro` updates whose deltas are all non-negative keeps
all three accumulators non-negative. -/
theorem runAddMacros_nonneg (ops : List (MacroType × ℚ × String)) :
    ∀ (log : DailyLog), 0 ≤ log.proteinGrams → 0 ≤ log.carbsGrams →
      0 ≤ log.fatGrams → (∀ o ∈ ops, 0 ≤ o.2.1) →
      0 ≤ (runAddMacros ops log).proteinGrams ∧
      0 ≤ (runAddMacros ops log).carbsGrams ∧
      0 ≤ (runAddMacros ops log).fatGrams := by
  induction ops with
  | nil => intro log hp hc hf _; exact ⟨hp, hc, hf⟩
  | cons o rest ih =>
      intro log hp hc hf hops
      have ho : 0 ≤ o.2.1 := hops o (List.mem_cons_self o rest)
      have hrest : ∀ o' ∈ rest, 0 ≤ o'.2.1 :=
        fun o' h' => hops o' (List.mem_cons_of_mem o h')
      have hstep : runAddMacros (o :: rest) log =
          runAddMacros rest (addMacro o.1 o.2.1 o.2.2 log) := rfl
      rw [hstep]
      refine ih (addMacro o.1 o.2.1 o.2.2 log) ?_ ?_ ?_ hrest <;>
        cases o with
        | mk t rest' =>
            cases t <;>
              simp [addMacro] <;>
              first
                | exact add_nonneg (by assumption) ho
                | assumption

/-- C4 (amended): starting from the empty record, the three macro
accumulators are non-negative after every sequence of `addMacro` calls whose
deltas are all non-negative.  (The code never clamps: each accumulator
always equals the sum of the applied deltas, so negative deltas can drive it
negative — see the counterexample.) -/
theorem C4_macros_nonneg :
    ∀ (d : LocalInstant) (iso : String) (ops : List (MacroType × ℚ × String)),
      (∀ o ∈ ops, 0 ≤ o.2.1) →
      0 ≤ (runAddMacros ops (createEmptyDailyLog d iso)).proteinGrams ∧
      0 ≤ (runAddMacros ops (createEmptyDailyLog d iso)).carbsGrams ∧
      0 ≤ (runAddMacros ops (createEmptyDailyLog d iso)).fatGrams := by
  intro d iso ops hops
  exact runAddMacros_nonneg ops (createEmptyDailyLog d iso)
    (le_refl 0) (le_refl 0) (le_refl 0) hops

/-- C4 witness: a concrete non-negative-delta run from the empty record. -/
theorem C4_witness :
    0 ≤ (runAddMacros [(MacroType.protein, 10, "t2"), (MacroType.carbs, 3, "t3")]
        (createEmptyDailyLog ⟨2024, 5, 15, 0⟩ "t1")).proteinGrams ∧
    0 ≤ (runAddMacros [(MacroType.protein, 10, "t2"), (MacroType.carbs, 3, "t3")]
        (createEmptyDailyLog ⟨2024, 5, 15, 0⟩ "t1")).carbsGrams ∧
    0 ≤ (runAddMacros [(MacroType.protein, 10, "t2"), (MacroType.carbs, 3, "t3")]
        (createEmptyDailyLog ⟨2024, 5, 15, 0⟩ "t1")).fatGrams :=
  C4_macros_nonneg ⟨2024, 5, 15, 0⟩ "t1"
    [(MacroType.protein, 10, "t2"), (MacroType.carbs, 3, "t3")]
    (by intro o ho
        simp only [List.mem_cons, List.not_mem_nil, or_false] at ho
        rcases ho with rfl | rfl <;> norm_num)

/-- The four-way `reduce` of `getSevenDayAverages` computes the four
per-column sums (missing values as zero). -/
theorem avgSums_eq (rows : List DbAvgRow) :
    avgSums rows =
      ((rows.map fun r => r.total_calories.getD 0).sum,
       (rows.map fun r => r.protein_grams.getD 0).sum,
       (rows.map fun r => r.steps.getD 0).sum,
       (rows.map fun r => r.sleep_hours.getD 0).sum) := by
  have go : ∀ (rows : List DbAvgRow) (a b c d : ℚ),
      rows.foldl
        (fun acc r =>
          (acc.1 + r.total_calories.getD 0,
           acc.2.1 + r.protein_grams.getD 0,
           acc.2.2.1 + r.steps.getD 0,
           acc.2.2.2 + r.sleep_hours.getD 0)) (a, b, c, d) =
      (a + (rows.map fun r => r.total_calories.getD 0).sum,
       b + (rows.map fun r => r.protein_grams.getD 0).sum,
       c + (rows.map fun r => r.steps.getD 0).sum,
       d + (rows.map fun r => r.sleep_hours.getD 0).sum) := by
    intro rows
    induction rows with
    | nil => intro a b c d; simp
    | cons r rs ih =>
        intro a b c d
        simp only [List.foldl_cons, List.map_cons, List.sum_cons, ih,
          Prod.mk.injEq]
        refine ⟨by ring, by ring, by ring, by ring⟩
  simpa using go rows 0 0 0 0

/-- Summing sleep with nulls as zero over all rows equals summing it over
the rows where it is present. -/
theorem sleep_sum_filter (l : List DbAvgRow) :
    ((l.filter fun r => r.sleep_hours.isSome).map
        fun r => r.sleep_hours.getD 0).sum =
      (l.map fun r => r.sleep_hours.getD 0).sum := by
  induction l with
  | nil => rfl
  | cons r rs ih =>
      cases h : r.sleep_hours with
      | none => simp [List.filter_cons, h, ih]
      | some v => simp [List.filter_cons, h, ih]

/-- The sleep component of the averages: guarding on a positive count of
sleep-bearing rows and dividing the null-as-zero sum by that count is the
same as guarding on that count being zero and averaging over the
sleep-bearing rows only. -/
theorem sleepAvg_eq (L : List DbAvgRow) :
    (if 0 < (L.filter fun r => r.sleep_hours.isSome).length then
        some ((L.map fun r => r.sleep_hours.getD 0).sum /
          ((L.filter fun r => r.sleep_hours.isSome).length : ℚ))
      else none) =
    (if (L.filter fun r => r.sleep_hours.isSome).length = 0 then none
      else some (((L.filter fun r => r.sleep_hours.isSome).map
          fun r => r.sleep_hours.getD 0).sum /
        ((L.filter fun r => r.sleep_hours.isSome).length : ℚ))) := by
  rw [sleep_sum_filter]
  rcases h : L.filter fun r => r.sleep_hours.isSome with _ | ⟨w, ws⟩ <;>
    rw [h] <;> simp

/-- C3 (amended): with a signed-in user and no query error,
`getSevenDayAverages` averages calories, protein and steps over the count of
rows having at least one non-null column (all-null rows are dropped from the
denominator, so it is not the count of all rows of the window), treats
remaining missing values as zero, averages sleep only over the rows where
sleep is present, and returns all-null when the window has zero rows or only
all-null rows. -/
theorem C3_seven_day_averages :
    ∀ (u : String) (data : List DbAvgRow),
      getSevenDayAverages (some u) false data = sevenDayAveragesAmended data := by
  intro u data
  unfold getSevenDayAverages sevenDayAveragesAmended
  cases data with
  | nil => simp
  | cons r rs =>
      simp only [Bool.false_or, List.length_cons]
      rw [if_neg (by simp)]
      rcases hval : (r :: rs).filter avgRowValid with _ | ⟨v, vs⟩
      · simp
      · have h1 : ¬(((v :: vs).length == 0) = true) := by simp
        have h2 : ¬((v :: vs).length = 0) := by simp
        rw [if_neg h1, if_neg h2, avgSums_eq]
        simp only [SevenDayAverages.mk.injEq]
        exact ⟨trivial, trivial, trivial, sleepAvg_eq (v :: vs)⟩

/-- C3 counterexample: a window holding one all-null row and one row with
calories 8 (protein and steps 0, sleep absent).  The claimed rule — average
over the count of ALL days of the window with missing values as zero — gives
a calorie average of (0+8)/2 = 4, but the code drops the all-null row from
the denominator and returns 8/1 = 8. -/
theorem C3_counterexample :
    getSevenDayAverages (some "u") false
        [⟨none, none, none, none⟩, ⟨some 8, some 0, some 0, none⟩] ≠
      sevenDayAveragesClaimed
        [⟨none, none, none, none⟩, ⟨some 8, some 0, some 0, none⟩] := by
  intro h
  have hc := congrArg SevenDayAverages.calories h
  simp [getSevenDayAverages, sevenDayAveragesClaimed, avgRowValid, avgSums,
    List.filter] at hc
  norm_num at hc

/-- C8 (amended): `getWeightHistory` returns `[]` on a query error; its
result is in ascending day-key order; every returned point comes from a
stored row of the user with a non-absent weight and day key ≥ the window
start (there is no upper bound at `today` — the query is one-sided); every
such row is returned; and when no row qualifies the result is the empty
sequence, not an error. -/
theorem C8_weight_history :
    ∀ (u : String) (db : List DbWeightRow) (start : String),
      getWeightHistory (some u) true db start = [] ∧
      (getWeightHistory (some u) false db start).Pairwise
        (fun p q => dayKeyLe p.1 q.1) ∧
      (∀ p ∈ getWeightHistory (some u) false db start,
        ∃ r ∈ db, r.user_id = u ∧ dayKeyLe start r.log_date ∧
          r.weight_lbs = some p.2 ∧ r.log_date = p.1) ∧
      (∀ r ∈ db, r.user_id = u → dayKeyLe start r.log_date →
        ∀ w : ℚ, r.weight_lbs = some w →
          (r.log_date, w) ∈ getWeightHistory (some u) false db start) ∧
      (db.filter (weightRowMatches u start) = [] →
        getWeightHistory (some u) false db start = []) := by
  intro u db start
  have hgw : getWeightHistory (some u) false db start =
      ((db.filter (weightRowMatches u start)).insertionSort
          (fun a b => dayKeyLe a.log_date b.log_date)).map
        (fun r => (r.log_date, r.weight_lbs.getD 0)) := rfl
  refine ⟨rfl, ?_, ?_, ?_, ?_⟩
  · rw [hgw]
    exact List.Pairwise.map _ (fun a b h => h)
      (List.sorted_insertionSort
        (fun a b : DbWeightRow => dayKeyLe a.log_date b.log_date)
        (db.filter (weightRowMatches u start)))
  · intro p hp
    rw [hgw, List.mem_map] at hp
    obtain ⟨r, hr, rfl⟩ := hp
    have hr2 : r ∈ db.filter (weightRowMatches u start) := by
      simpa [List.mem_insertionSort] using hr
    rw [List.mem_filter] at hr2
    obtain ⟨hmem, hmatch⟩ := hr2
    simp only [weightRowMatches, Bool.and_eq_true, beq_iff_eq,
      decide_eq_true_eq, Option.isSome_iff_exists] at hmatch
    obtain ⟨⟨hu, hstart⟩, w, hw⟩ := hmatch
    exact ⟨r, hmem, hu, hstart, by simp [hw], rfl⟩
  · intro r hr hu hstart w hw
    rw [hgw, List.mem_map]
    refine ⟨r, ?_, by simp [hw]⟩
    simp only [List.mem_insertionSort, List.mem_filter]
    exact ⟨hr, by simp [weightRowMatches, hu, hstart, hw]⟩
  · intro hnil
    rw [hgw, hnil]
    rfl

/-- C8 witness: error yields the empty sequence, and a qualifying stored row
is returned. -/
theorem C8_witness :
    getWeightHistory (some "u1") true [⟨"u1", "2024-06-10", some 150⟩]
        "2024-06-08" = [] ∧
    ("2024-06-10", (150 : ℚ)) ∈
      getWeightHistory (some "u1") false [⟨"u1", "2024-06-10", some 150⟩]
        "2024-06-08" :=
  ⟨(C8_weight_history "u1" [⟨"u1", "2024-06-10", some 150⟩] "2024-06-08").1,
   (C8_weight_history "u1" [⟨"u1", "2024-06-10", some 150⟩] "2024-06-08").2.2.2.1
     ⟨"u1", "2024-06-10", some 150⟩ (by simp) rfl (by decide) 150 rfl⟩

/-- C8 counterexample: the query has no upper bound at `today`.  With
today = 2024-06-15 and a 7-day window starting 2024-06-08, a stored row
dated 2024-06-20 (after today) is returned by the code, while the claimed
range `[today - window, today]` excludes it. -/
theorem C8_counterexample :
    getWeightHistory (some "u1") false [⟨"u1", "2024-06-20", some 150⟩]
        "2024-06-08" ≠
      getWeightHistoryClaimed (some "u1") false [⟨"u1", "2024-06-20", some 150⟩]
        "2024-06-08" "2024-06-15" := by
  decide

/-- The zero-padded two-digit rendering is two characters long for inputs
below 100. -/
theorem pad2_data_len : ∀ n < 100, (pad2 n).data.length = 2 := by decide

/-- The zero-padded two-digit rendering is injective on inputs below 100. -/
theorem pad2_data_inj :
    ∀ m < 100, ∀ n < 100, (pad2 m).data = (pad2 n).data → m = n := by decide

/-- The character data of a day key: the year's digits, then a dash, the
padded month, a dash and the padded day. -/
theorem getLocalDateString_data (d : LocalInstant) :
    (getLocalDateString d).data =
      (Nat.repr d.year).data ++
        '-' :: ((pad2 (d.monthIndex + 1)).data ++ '-' :: (pad2 d.day).data) := by
  have hdash : ("-" : String).data = ['-'] := rfl
  simp [getLocalDateString, hdash]

/-- Two instants whose day-of-month components differ (months and days both
below 100, as calendar values are) get different day keys: the last six
characters of the key are determined by the padded month and day, and the
padding is injective. -/
theorem getLocalDateString_ne_of_day_ne (a b : LocalInstant)
    (hm1 : a.monthIndex + 1 < 100) (hm2 : b.monthIndex + 1 < 100)
    (hd1 : a.day < 100) (hd2 : b.day < 100) (hne : a.day ≠ b.day) :
    getLocalDateString a ≠ getLocalDateString b := by
  intro h
  have hdata := congrArg String.data h
  rw [getLocalDateString_data, getLocalDateString_data] at hdata
  have hlen :
      ('-' :: ((pad2 (a.monthIndex + 1)).data ++ '-' :: (pad2 a.day).data)).length =
      ('-' :: ((pad2 (b.monthIndex + 1)).data ++ '-' :: (pad2 b.day).data)).length := by
    simp [pad2_data_len _ hm1, pad2_data_len _ hm2,
      pad2_data_len _ hd1, pad2_data_len _ hd2]
  obtain ⟨-, hsuf⟩ := List.append_inj' hdata hlen
  injection hsuf with hdash htail
  obtain ⟨hm, hd⟩ :=
    List.append_inj htail (by rw [pad2_data_len _ hm1, pad2_data_len _ hm2])
  injection hd with hdash2 hdaydata
  exact hne (pad2_data_inj _ hd1 _ hd2 hdaydata)

/-- Every month of the runtime calendar has more than one day. -/
theorem one_lt_daysInMonth (y m : ℕ) : 1 < daysInMonth y m := by
  unfold daysInMonth
  split <;> (try split) <;> norm_num

/-- No month of the runtime calendar exceeds 31 days. -/
theorem daysInMonth_le (y m : ℕ) : daysInMonth y m ≤ 31 := by
  unfold daysInMonth
  split <;> (try split) <;> norm_num

/-- Crossing local midnight always changes the day-of-month: within a month
it increments, and at a month (or year) boundary it returns to 1 from the
month's last day, which is larger than 1. -/
theorem nextCalendarDay_day_ne (d : LocalInstant)
    (h2 : d.day ≤ daysInMonth d.year d.monthIndex) :
    (nextCalendarDay d).day ≠ d.day := by
  have hgt := one_lt_daysInMonth d.year d.monthIndex
  unfold nextCalendarDay
  split
  · simp
  · split
    · simp
      omega
    · simp
      omega

/-- The next day's day-of-month stays below 100. -/
theorem nextCalendarDay_day_lt (d : LocalInstant)
    (_h2 : d.day ≤ daysInMonth d.year d.monthIndex) :
    (nextCalendarDay d).day < 100 := by
  have hle := daysInMonth_le d.year d.monthIndex
  unfold nextCalendarDay
  split
  · simp
    omega
  · split
    · simp
    · simp

/-- The next day's month number stays below 100. -/
theorem nextCalendarDay_month_lt (d : LocalInstant) (hm : d.monthIndex ≤ 11) :
    (nextCalendarDay d).monthIndex + 1 < 100 := by
  unfold nextCalendarDay
  split
  · simp
    omega
  · split
    · simp
      omega
    · simp

/-- C7: the day key depends only on the local calendar components — two
instants of the same local calendar day get identical keys; crossing local
midnight (to the next calendar day) always changes the key; and `isLogStale`
holds exactly when the record's key differs from the key of the current
instant. -/
theorem C7_day_key_and_staleness :
    (∀ i1 i2 : LocalInstant, i1.year = i2.year → i1.monthIndex = i2.monthIndex →
        i1.day = i2.day → getLocalDateString i1 = getLocalDateString i2) ∧
    (∀ d : LocalInstant, d.monthIndex ≤ 11 → 1 ≤ d.day →
        d.day ≤ daysInMonth d.year d.monthIndex →
        getLocalDateString (nextCalendarDay d) ≠ getLocalDateString d) ∧
    (∀ (s : String) (now : LocalInstant),
        isLogStale s now = true ↔ s ≠ getLocalDateString now) := by
  refine ⟨?_, ?_, ?_⟩
  · intro i1 i2 h1 h2 h3
    simp [getLocalDateString, h1, h2, h3]
  · intro d hm hd1 hd2
    exact getLocalDateString_ne_of_day_ne _ _
      (nextCalendarDay_month_lt d hm) (by omega)
      (nextCalendarDay_day_lt d hd2)
      (by have := daysInMonth_le d.year d.monthIndex; omega)
      (nextCalendarDay_day_ne d hd2)
  · intro s now
    simp [isLogStale, getTodayString, bne_iff_ne]

/-- C7 witness: same-day instants Jun 15 2024 at two times of day share a
key; the key changes across the Dec 31 2024 → Jan 1 2025 midnight; and a
concrete staleness check. -/
theorem C7_witness :
    getLocalDateString ⟨2024, 5, 15, 0⟩ = getLocalDateString ⟨2024, 5, 15, 86399000⟩ ∧
    getLocalDateString (nextCalendarDay ⟨2024, 11, 31, 0⟩) ≠
      getLocalDateString ⟨2024, 11, 31, 0⟩ ∧
    (isLogStale "2024-12-30" ⟨2024, 11, 31, 0⟩ = true ↔
      "2024-12-30" ≠ getLocalDateString ⟨2024, 11, 31, 0⟩) :=
  ⟨C7_day_key_and_staleness.1 ⟨2024, 5, 15, 0⟩ ⟨2024, 5, 15, 86399000⟩ rfl rfl rfl,
   C7_day_key_and_staleness.2.1 ⟨2024, 11, 31, 0⟩ (by norm_num) (by norm_num)
     (by norm_num [daysInMonth]),
   C7_day_key_and_staleness.2.2 "2024-12-30" ⟨2024, 11, 31, 0⟩⟩
